import Mathlib

/-!
Verification of the Floobits connection protocol
(`floo/common/protocols/floo_proto.py`) against its natural-language
specification.

The Python class `FlooProtocol` is shallowly embedded as a pure state
type `FlooState` with one Lean function per method.  Machine-level
details are modelled as follows:

* bytes are `Nat` (a byte value), byte strings are `List Nat`; the
  newline separator is byte 10;
* the JSON primitive is opaque (per the spec): inbound decoding and
  parsing (`bytes.decode('utf-8', 'ignore')` followed by `json.loads`)
  is a parameter `parse : List Nat → Option Msg`, which returns `none`
  exactly when the line raises in the original code and is dropped;
  outbound `json.dumps` is a parameter `dumps : Item → String`;
* Python attributes created by plain assignment are distinct slots: the
  source assigns `self.retries`, `self.reconnect_delay` and
  `self._empty_selects` in some places while reading
  `self._retries`, `self._reconnect_delay` and `self._empty_reads`;
  the former appear here as the `…Attr` fields, `none` until first
  assigned, and nothing reads them — exactly as in the source;
* the external timer service is part of the state: `liveTimers` is the
  list of reconnect timers armed (by `utils.set_timeout(self.connect, …)`
  in `reconnect`) and not yet fired or cancelled; connect-retry timers
  scheduled by `_connect` are recorded in `connAttemptScheduled`;
* observable effects are ghost trace fields: `connectEvents` counts
  `emit("connect")`, `dataEvents` records `emit("data", …)` payloads in
  order, `editorErrors` records `editor.error_message(…)` calls, `sent`
  records the frames passed to `sock.sendall` in order, `exns` records
  uncaught exceptions escaping a callback, and `reconnectCalls` counts
  entries into `reconnect()` (including no-op entries);
* subscriber callbacks run by `emit` are modelled as non-raising (they
  are external collaborators), so the `room_info` handler-failure
  teardown branch of `_handle` is not exercised;
* module globals of `shared.py` (`G.TICK_TIME`, `G.JOINED_WORKSPACE`,
  `G.DEFAULT_PORT`) and the availability of the `ssl` module are fields
  of the state.

The outcome of the non-blocking OS-level `sock.connect` and of
`ssl.do_handshake` are external inputs, passed as explicit outcome
parameters classifying the branches taken by the source.
-/

namespace FlooProto

/-- A parsed inbound message; the code only ever inspects its `name`
field (`data.get('name')`), everything else is opaque payload. -/
structure Msg where
  name : String
  deriving DecidableEq

/-- An outbound application item (a JSON object, modelled as an
association list so that Python truthiness `not item` is `item = []`). -/
abbrev Item : Type := List (String × String)

/-- `FlooProtocol.MAX_RETRIES` (signed: `_retries` may go negative). -/
def MAX_RETRIES : Int := 20

/-- `FlooProtocol.INITIAL_RECONNECT_DELAY` in milliseconds. -/
def INITIAL_RECONNECT_DELAY : Nat := 500

/-- The mutable state of a `FlooProtocol` instance together with the
relevant module globals, the external timer service, and ghost traces
of the observable effects. -/
structure FlooState where
  host : String
  port : Nat
  secure : Bool
  connected : Bool
  /-- `self._listener` -/
  listener : Bool
  /-- `self._needs_handshake` -/
  needsHandshake : Bool
  /-- `self._sock`: the open socket's file descriptor, if any -/
  sock : Option Nat
  /-- `self._q`: the outbound deque of pre-serialized frames -/
  q : List String
  /-- `self._buf`: inbound bytes not yet split into complete frames -/
  buf : List Nat
  /-- `self._reconnect_delay` -/
  reconnectDelay : Nat
  /-- `self._retries` -/
  retries : Int
  /-- `self._empty_reads` -/
  emptyReads : Nat
  /-- `self._reconnect_timeout`: handle of the pending reconnect timer -/
  reconnectTimeout : Option Nat
  /-- the distinct attribute `self.retries` (assigned in `stop` and
  `_connect`, never read) -/
  retriesAttr : Option Int
  /-- the distinct attribute `self.reconnect_delay` (assigned in
  `_connect`, never read) -/
  reconnectDelayAttr : Option Nat
  /-- the distinct attribute `self._empty_selects` (assigned in
  `connect`, never read) -/
  emptySelectsAttr : Option Nat
  /-- `G.TICK_TIME` -/
  tickTime : Nat
  /-- `G.JOINED_WORKSPACE` -/
  joinedWorkspace : Bool
  /-- whether the `ssl` module imported successfully -/
  sslAvailable : Bool
  /-- `G.DEFAULT_PORT` -/
  defaultPort : Nat
  /-- reconnect timers armed and not yet fired or cancelled -/
  liveTimers : List Nat
  /-- fresh-handle source for the timer service -/
  nextTimer : Nat
  /-- fresh-descriptor source for `socket.socket(…)` -/
  nextFd : Nat
  /-- connect-retry timers scheduled by `_connect` (attempt counts) -/
  connAttemptScheduled : List Nat
  /-- ghost: number of `emit("connect")` calls -/
  connectEvents : Nat
  /-- ghost: payloads of `emit("data", name, data)` calls, in order -/
  dataEvents : List Msg
  /-- ghost: `editor.error_message` calls, in order -/
  editorErrors : List String
  /-- ghost: frames passed to `sock.sendall`, in order -/
  sent : List String
  /-- ghost: uncaught exceptions escaping a callback -/
  exns : List String
  /-- ghost: number of entries into `reconnect()` (no-ops included) -/
  reconnectCalls : Nat
  deriving DecidableEq

/-- `FlooProtocol.__init__(host, port, secure)`; `tickTime` and
`joined` are the ambient globals `G.TICK_TIME` / `G.JOINED_WORKSPACE`. -/
def initState (host : String) (port : Nat) (secure : Bool)
    (tickTime : Nat) (joined : Bool) : FlooState :=
  { host := host
    port := port
    secure := secure
    connected := false
    listener := false
    needsHandshake := secure
    sock := none
    q := []
    buf := []
    reconnectDelay := INITIAL_RECONNECT_DELAY
    retries := MAX_RETRIES
    emptyReads := 0
    reconnectTimeout := none
    retriesAttr := none
    reconnectDelayAttr := none
    emptySelectsAttr := none
    tickTime := tickTime
    joinedWorkspace := joined
    sslAvailable := true
    defaultPort := 3448
    liveTimers := []
    nextTimer := 0
    nextFd := 0
    connAttemptScheduled := []
    connectEvents := 0
    dataEvents := []
    editorErrors := []
    sent := []
    exns := []
    reconnectCalls := 0 }

/-- The fragment `utils.cancel_timeout(self._reconnect_timeout);
self._reconnect_timeout = None` (the prelude of `connect()` and part of
`stop()`).  Cancelling `None` or an already-fired handle is a no-op on
the timer service (`List.erase` of an absent element). -/
def cancelReconnectTimeout (s : FlooState) : FlooState :=
  { s with
    liveTimers := match s.reconnectTimeout with
      | none => s.liveTimers
      | some h => s.liveTimers.erase h
    reconnectTimeout := none }

/-- `FlooProtocol.cleanup`: best-effort socket shutdown/close (no
modelled effect), `G.JOINED_WORKSPACE = False`, clear the inbound
buffer, drop the socket handle, mark not-established. -/
def cleanup (s : FlooState) : FlooState :=
  { s with
    joinedWorkspace := false
    buf := []
    sock := none
    connected := false }

/-- The delay-advance expression of `reconnect`:
`min(10000, int(1.5 * self._reconnect_delay))`.  For a natural `d`,
`1.5 * d` is exact in floating point and `int` truncates, so this is
`min 10000 (3 * d / 2)` with natural division. -/
def reconnectDelayStep (d : Nat) : Nat :=
  min 10000 (3 * d / 2)

/-- The terminal message of `reconnect` when the budget is exhausted. -/
def terminalMsg : String :=
  "Floobits Error! Too many reconnect failures. Giving up."

/-- `FlooProtocol.reconnect`: no-op when a reconnect timer handle is
set; otherwise `cleanup()`, advance the delay, arm a timer when
`_retries > 0`, surface the terminal error when `_retries == 0`, and
decrement `_retries` unconditionally. -/
def reconnect (s : FlooState) : FlooState :=
  let s0 := { s with reconnectCalls := s.reconnectCalls + 1 }
  match s.reconnectTimeout with
  | some _ => s0
  | none =>
    let s1 := cleanup s0
    let s2 := { s1 with reconnectDelay := reconnectDelayStep s1.reconnectDelay }
    let s3 :=
      if (0 : Int) < s2.retries then
        { s2 with
          liveTimers := s2.liveTimers ++ [s2.nextTimer]
          reconnectTimeout := some s2.nextTimer
          nextTimer := s2.nextTimer + 1 }
      else if s2.retries = (0 : Int) then
        { s2 with editorErrors := s2.editorErrors ++ [terminalMsg] }
      else s2
    { s3 with retries := s3.retries - 1 }

/-- `FlooProtocol.stop`: assigns the distinct attribute `self.retries`
(not `self._retries`), cancels the pending timer, and runs `cleanup()`. -/
def stop (s : FlooState) : FlooState :=
  cleanup (cancelReconnectTimeout { s with retriesAttr := some (-1) })

/-- Classification of the non-blocking `sock.connect` outcome in
`_connect`: success, "already connected" (`EISCONN`, treated as
success), in-progress/would-block (retry scheduled), or any other
socket error. -/
inductive ConnOutcome where
  | ok
  | isconn
  | inProgress
  | err
  deriving DecidableEq

/-- The success tail of `_connect`: SSL-wrap the socket when secure
(the descriptor is unchanged in the model and the handshake is
deferred), clear the outbound queue, assign the distinct attributes
`self.reconnect_delay` and `self.retries` (not `self._reconnect_delay`
and `self._retries`), emit `connect`, and mark established. -/
def connectFinish (s : FlooState) : FlooState :=
  { s with
    q := []
    reconnectDelayAttr := some INITIAL_RECONNECT_DELAY
    retriesAttr := some MAX_RETRIES
    connectEvents := s.connectEvents + 1
    connected := true }

/-- `FlooProtocol._connect(attempts)` with the OS connect outcome `o`
made explicit.  The `attempts > 500` guard and the hard-error branch
invoke `self._reconnect()`; no attribute `_reconnect` exists under
`src/`, so (modelled from the spec: "treat as timeout and go to
`reconnect()`" / "any other error → log and go to `reconnect()`",
resolving the call to the missing `_reconnect` as `reconnect`) both
branches run `reconnect`.  The in-progress branch schedules
`_connect(attempts + 1)` after 20ms on the timer service. -/
def connectAttempt (o : ConnOutcome) (attempts : Nat) (s : FlooState) : FlooState :=
  if attempts > 500 then reconnect s
  else
    match s.sock with
    | none => s
    | some _ =>
      match o with
      | .inProgress => { s with connAttemptScheduled := s.connAttemptScheduled ++ [attempts + 1] }
      | .err => reconnect s
      | .ok => connectFinish s
      | .isconn => connectFinish s

/-- The body of `FlooProtocol.connect` before `self._connect()`: cancel
any pending reconnect timer, `cleanup()`, assign the distinct attribute
`self._empty_selects` (not `self._empty_reads`), open a fresh
non-blocking socket, and — when secure — either write the CA bundle (no
modelled effect) or, with no `ssl` module, downgrade to plaintext,
switching a default secure port to 3148. -/
def connectPrep (s : FlooState) : FlooState :=
  let s1 := cancelReconnectTimeout s
  let s2 := cleanup s1
  let s3 := { s2 with
    emptySelectsAttr := some 0
    sock := some s2.nextFd
    nextFd := s2.nextFd + 1 }
  if s3.secure then
    if s3.sslAvailable then s3
    else
      { s3 with
        secure := false
        port := if s3.port = s3.defaultPort then 3148 else s3.port }
  else s3

/-- `FlooProtocol.connect` followed by the first `_connect` attempt,
whose OS-level outcome is `o`. -/
def connect (o : ConnOutcome) (s : FlooState) : FlooState :=
  connectAttempt o 0 (connectPrep s)

/-- The timer service fires the pending reconnect timer: the timer
leaves the service and its callback `self.connect` runs (with OS
connect outcome `o`).  The stale handle in `_reconnect_timeout` is
cleared by `connect`'s own prelude. -/
def fireReconnectTimer (o : ConnOutcome) (s : FlooState) : FlooState :=
  match s.reconnectTimeout with
  | none => s
  | some h => connect o { s with liveTimers := s.liveTimers.erase h }

/-- `bytes.partition(b'\n')` restricted to the found case: splits off
the part before the first newline byte and the part after it. -/
def splitOnce : List Nat → Option (List Nat × List Nat)
  | [] => none
  | c :: rest =>
    if c = 10 then some ([], rest)
    else
      match splitOnce rest with
      | none => none
      | some (b, a) => some (c :: b, a)

theorem splitOnce_length_lt :
    ∀ {l b a : List Nat}, splitOnce l = some (b, a) → a.length < l.length := by
  intro l
  induction l with
  | nil => intro b a h; simp [splitOnce] at h
  | cons c rest ih =>
    intro b a h
    simp only [splitOnce] at h
    by_cases hc : c = 10
    · rw [if_pos hc] at h
      obtain ⟨hb, ha⟩ := Prod.mk.injEq .. ▸ Option.some.injEq .. ▸ h
      subst ha
      simp [List.length_cons]
    · rw [if_neg hc] at h
      cases hs : splitOnce rest with
      | none => rw [hs] at h; exact absurd h (by simp)
      | some p =>
        obtain ⟨b0, a0⟩ := p
        rw [hs] at h
        obtain ⟨hb, ha⟩ := Prod.mk.injEq .. ▸ Option.some.injEq .. ▸ h
        subst ha
        have := ih hs
        simp [List.length_cons]
        omega

/-- The frame-splitting loop of `FlooProtocol._handle`: repeatedly
partition the buffer at the first newline; a complete line that parses
(decodes and loads) yields one dispatched message, a line that raises
is logged and dropped, and in both cases the loop continues on the
remainder; the loop stops when no separator is found, leaving the
remainder buffered.  Returns the dispatched messages in order and the
final buffer. -/
def handleLines (parse : List Nat → Option Msg) (buf : List Nat) :
    List Msg × List Nat :=
  match h : splitOnce buf with
  | none => ([], buf)
  | some (line, after) =>
    let r := handleLines parse after
    match parse line with
    | none => r
    | some m => (m :: r.1, r.2)
termination_by buf.length
decreasing_by exact splitOnce_length_lt h

/-- `FlooProtocol._handle(data)`: append the new bytes to `self._buf`,
run the splitting loop, record the dispatched `data` events, and keep
the unterminated remainder buffered. -/
def handleData (parse : List Nat → Option Msg) (data : List Nat)
    (s : FlooState) : FlooState :=
  let r := handleLines parse (s.buf ++ data)
  { s with
    buf := r.2
    dataEvents := s.dataEvents ++ r.1 }

/-- The receive part of `FlooProtocol.read`: `chunks` are the byte
blocks successive `sock.recv(65536)` calls return before the loop ends
(an empty result or a tolerated socket error).  `recv` on a missing
socket raises `AttributeError`, which the source catches by calling
`reconnect()`.  Non-empty accumulated data resets the empty-read
counter and goes to `_handle`; an empty read increments the counter
and, past `2000 / G.TICK_TIME` (natural division agrees with Python's
true division under `>` against a natural counter), triggers
`reconnect()`. -/
def readBody (parse : List Nat → Option Msg) (chunks : List (List Nat))
    (s : FlooState) : FlooState :=
  match s.sock with
  | none => reconnect s
  | some _ =>
    let data := chunks.flatten
    if data = [] then
      let s1 := { s with emptyReads := s.emptyReads + 1 }
      if s1.emptyReads > 2000 / s1.tickTime then reconnect s1 else s1
    else
      handleData parse data { s with emptyReads := 0 }

/-- `FlooProtocol.read`: the listener branch first calls
`self._sock.accept()` (no modelled effect on an open socket; an
uncaught `AttributeError` on a missing one), then the receive loop
runs.  The guard reads `self._listen`; no such attribute is assigned
under `src/`, so (modelled from the spec: "if acting as a listener,
accepts a pending inbound connection first") it is taken to be the
listener flag `self._listener`. -/
def readOp (parse : List Nat → Option Msg) (chunks : List (List Nat))
    (s : FlooState) : FlooState :=
  if s.listener then
    match s.sock with
    | none => { s with exns := s.exns ++ ["AttributeError"] }
    | some _ => readBody parse chunks s
  else readBody parse chunks s

/-- Outcome of `ssl.do_handshake`: complete, a transient `ssl.SSLError`
(expected, retried on a later write-ready callback), or any other
exception. -/
inductive HsOutcome where
  | ok
  | sslError
  | otherError
  deriving DecidableEq

/-- `FlooProtocol.write`: while the handshake is pending, attempt one
handshake step with outcome `hs` (transient errors return, other errors
reconnect, success clears the pending flag and returns).  Otherwise
drain the queue front-to-back with `sendall`; the empty queue ends the
loop via `IndexError`.  On a missing socket with a non-empty queue the
first frame is popped and the `sendall` `AttributeError` escapes
uncaught. -/
def write (hs : HsOutcome) (s : FlooState) : FlooState :=
  if s.needsHandshake then
    match hs with
    | .sslError => s
    | .otherError => reconnect s
    | .ok => { s with needsHandshake := false }
  else
    match s.sock with
    | some _ => { s with sent := s.sent ++ s.q, q := [] }
    | none =>
      match s.q with
      | [] => s
      | _ :: rest => { s with q := rest, exns := s.exns ++ ["AttributeError"] }

/-- `FlooProtocol.put(item)`: a falsy (empty) item is a no-op returning
`None`; otherwise serialize, append the newline separator, push at the
tail of the outbound deque, and return the new queue length. -/
def put (dumps : Item → String) (s : FlooState) (item : Item) :
    FlooState × Option Nat :=
  if item = [] then (s, none)
  else
    let s1 := { s with q := s.q ++ [dumps item ++ "\n"] }
    (s1, some s1.q.length)

/-- `FlooProtocol.fd_set(readable, writeable, errorable)`: contributes
nothing unless established or a listener; otherwise always appends the
descriptor to the error set, appends it to the read set when a
listener, then — when a handshake is pending — appends it to the write
set and returns; otherwise appends it to the write set when the queue
is non-empty and appends it to the read set.  `fileno()` on a missing
socket would raise; the theorems below require an open socket. -/
def fd_set (s : FlooState) (readable writeable errorable : List Nat) :
    List Nat × List Nat × List Nat :=
  if !s.connected && !s.listener then (readable, writeable, errorable)
  else
    let fn := s.sock.getD 0
    let errorable1 := errorable ++ [fn]
    let readable1 := if s.listener then readable ++ [fn] else readable
    if s.needsHandshake then (readable1, writeable ++ [fn], errorable1)
    else
      let writeable1 := if s.q.length > 0 then writeable ++ [fn] else writeable
      (readable1 ++ [fn], writeable1, errorable1)

/-- Iterate a state transformer. -/
def iterateOp (f : FlooState → FlooState) : Nat → FlooState → FlooState
  | 0, s => s
  | n + 1, s => f (iterateOp f n s)

/-- The backoff-formula the claim and §4.4 of the spec state in words:
`min(10000, round(1.5 × delay))`, with mathematical rounding. -/
def reconnectDelayStepRounded (d : Nat) : Nat :=
  min 10000 (Int.toNat (round ((3 : ℚ) * d / 2)))

/-- The pure delay sequence obtained by iterating the source's
delay-advance expression from the initial delay. -/
def delaySeq : Nat → Nat
  | 0 => INITIAL_RECONNECT_DELAY
  | n + 1 => reconnectDelayStep (delaySeq n)

/-- Inbound parse function dispatching nothing (used for callbacks
whose input carries no complete frame). -/
def parseNone : List Nat → Option Msg := fun _ => none

/-- A parse function for concrete witnesses: the single-byte line `A`
parses to the message named `A`, everything else raises. -/
def parseA : List Nat → Option Msg :=
  fun l => if l = [65] then some ⟨"A"⟩ else none

/-- Concatenate newline-terminated lines. -/
def joinLines (ls : List (List Nat)) : List Nat :=
  (ls.map (fun l => l ++ [10])).flatten

/-- `put` folded over a list of items. -/
def putAll (dumps : Item → String) (items : List Item) (s : FlooState) : FlooState :=
  items.foldl (fun t i => (put dumps t i).1) s

/-- A fresh plaintext connection object: `FlooProtocol(host, port,
secure=False)` with `G.TICK_TIME = 1` and `G.JOINED_WORKSPACE` unset. -/
def baseState : FlooState := initState "floobits.com" 3448 false 1 false

/-- A fresh secure connection object. -/
def secureBase : FlooState := initState "floobits.com" 3448 true 1 false

/-- An established plaintext connection: `connect()` followed by an
immediately successful OS-level connect. -/
def connState : FlooState := connect .ok baseState

/-- An established secure connection whose TLS handshake is still
pending. -/
def secureConnState : FlooState := connect .ok secureBase

/-- `k` failed reconnect cycles after an initial `reconnect()`: each
armed reconnect timer fires, its callback `connect()` runs, the
OS-level connect fails hard, and `_connect` re-enters `reconnect()`.
The `reconnectCalls` ghost counter counts the `reconnect()`
invocations (`k + 1` of them while timers keep being armed). -/
def reconnectIterF (k : Nat) (s : FlooState) : FlooState :=
  iterateOp (fireReconnectTimer .err) k (reconnect s)

/-- `n` consecutive empty `read()` callbacks on an established
connection. -/
def readIterN (n : Nat) : FlooState :=
  iterateOp (readOp parseNone []) n connState

/-- The invariant tying the protocol-side timer handle to the timer
service: the armed reconnect timers are exactly the one recorded in
`_reconnect_timeout`, so at most one is ever outstanding. -/
def reconnectTimerInv (s : FlooState) : Prop :=
  s.liveTimers = (match s.reconnectTimeout with
    | none => []
    | some h => [h])

instance : DecidablePred reconnectTimerInv := by
  intro s
  unfold reconnectTimerInv
  infer_instance

set_option maxRecDepth 8000

theorem reconnect_pending (s : FlooState) (h : Nat)
    (hp : s.reconnectTimeout = some h) :
    reconnect s = { s with reconnectCalls := s.reconnectCalls + 1 } := by
  unfold reconnect
  rw [hp]

theorem reconnect_nonpending_retries (s : FlooState)
    (hp : s.reconnectTimeout = none) :
    (reconnect s).retries = s.retries - 1 := by
  unfold reconnect
  rw [hp]
  dsimp only
  split
  · rfl
  · split <;> rfl

theorem reconnect_nonpending_delay (s : FlooState)
    (hp : s.reconnectTimeout = none) :
    (reconnect s).reconnectDelay = reconnectDelayStep s.reconnectDelay := by
  unfold reconnect
  rw [hp]
  dsimp only
  split
  · rfl
  · split <;> rfl

theorem reconnect_nonpending_errors (s : FlooState)
    (hp : s.reconnectTimeout = none) :
    (reconnect s).editorErrors
      = s.editorErrors ++ (if s.retries = 0 then [terminalMsg] else []) := by
  simp only [reconnect, cleanup, hp]
  by_cases h1 : (0 : Int) < s.retries
  · rw [if_pos h1, if_neg (by omega : ¬s.retries = 0)]
    simp
  · rw [if_neg h1]
    by_cases h2 : s.retries = (0 : Int)
    · rw [if_pos h2, if_pos h2]
    · rw [if_neg h2, if_neg h2]
      simp

theorem reconnect_nonpending_joined (s : FlooState)
    (hp : s.reconnectTimeout = none) :
    (reconnect s).joinedWorkspace = false := by
  unfold reconnect
  rw [hp]
  dsimp only
  split
  · rfl
  · split <;> rfl

theorem delaySeq_le_cap (n : Nat) : delaySeq n ≤ 10000 := by
  cases n with
  | zero => simp [delaySeq, INITIAL_RECONNECT_DELAY]
  | succ m =>
    simp only [delaySeq, reconnectDelayStep]
    omega

theorem delaySeq_mono (n : Nat) : delaySeq n ≤ delaySeq (n + 1) := by
  have hc := delaySeq_le_cap n
  simp only [delaySeq, reconnectDelayStep]
  omega

/-- C1 — the claim fails on the code: on the second connect cycle the
backoff state is NOT reset.  Starting from a fresh plaintext
connection, after a successful `connect()`, three empty `read()`
callbacks, a `reconnect()` and a second successful `connect()` (the
timer fired), the outbound queue is empty and the connection is
established, but `_reconnect_delay` is 750 (not 500), `_retries` is 19
(not 20) and `_empty_reads` is 3 (not 0): `_connect` assigns the
distinct attributes `self.reconnect_delay` / `self.retries` and
`connect` assigns `self._empty_selects`, none of which is ever read. -/
theorem c1_connect_does_not_reset_backoff :
    (fireReconnectTimer .ok (reconnect (iterateOp (readOp parseNone []) 3 connState))).connected = true ∧
    (fireReconnectTimer .ok (reconnect (iterateOp (readOp parseNone []) 3 connState))).q = [] ∧
    (fireReconnectTimer .ok (reconnect (iterateOp (readOp parseNone []) 3 connState))).reconnectDelay = 750 ∧
    (fireReconnectTimer .ok (reconnect (iterateOp (readOp parseNone []) 3 connState))).retries = 19 ∧
    (fireReconnectTimer .ok (reconnect (iterateOp (readOp parseNone []) 3 connState))).emptyReads = 3 ∧
    (fireReconnectTimer .ok (reconnect (iterateOp (readOp parseNone []) 3 connState))).reconnectDelayAttr = some 500 ∧
    (fireReconnectTimer .ok (reconnect (iterateOp (readOp parseNone []) 3 connState))).retriesAttr = some 20 ∧
    (fireReconnectTimer .ok (reconnect (iterateOp (readOp parseNone []) 3 connState))).emptySelectsAttr = some 0 := by
  decide

/-- C2 — the claim fails on the code: `stop()` assigns the distinct
attribute `self.retries = -1`, leaving the real budget `self._retries`
at 20, and a subsequent `read()` callback (recv on the closed socket
raises `AttributeError`, caught by calling `reconnect()`) arms a fresh
reconnect timer. -/
theorem c2_stop_then_read_schedules_reconnect :
    (stop connState).retries = 20 ∧
    (stop connState).retriesAttr = some (-1) ∧
    (readOp parseNone [] (stop connState)).liveTimers = [0] ∧
    (readOp parseNone [] (stop connState)).reconnectTimeout = some 0 := by
  decide

/-- C3 counterexample — the delay 1125 is reached after two failed
reconnect cycles, and the advance from it yields 1687
(`int(1.5 * 1125)` truncates), while the claim's formula
`min(10000, round(1.5 × 1125))` yields 1688. -/
theorem c3_delay_round_counterexample :
    (reconnectIterF 1 baseState).reconnectDelay = 1125 ∧
    (reconnectIterF 2 baseState).reconnectDelay = 1687 ∧
    reconnectDelayStepRounded 1125 = 1688 := by
  refine ⟨by decide, by decide, ?_⟩
  norm_num [reconnectDelayStepRounded, round_eq]
  decide

/-- C3 (amended) — each non-no-op `reconnect()` advances the delay by
`min(10000, ⌊1.5 × delay⌋)` (truncation, not rounding); the resulting
sequence from 500 starts 500, 750, 1125, is monotonically
non-decreasing, and never exceeds 10000. -/
theorem c3_backoff_delay_floor :
    (∀ s : FlooState, s.reconnectTimeout = none →
        (reconnect s).reconnectDelay = reconnectDelayStep s.reconnectDelay) ∧
    delaySeq 0 = 500 ∧ delaySeq 1 = 750 ∧ delaySeq 2 = 1125 ∧
    (∀ n, delaySeq n ≤ delaySeq (n + 1)) ∧
    (∀ n, delaySeq n ≤ 10000) := by
  exact ⟨reconnect_nonpending_delay, by decide, by decide, by decide,
    delaySeq_mono, delaySeq_le_cap⟩

/-- C3 witness: the amended claim applied to a concrete state and
concrete indices. -/
theorem c3_backoff_delay_floor_witness :
    (reconnect baseState).reconnectDelay = reconnectDelayStep baseState.reconnectDelay ∧
    delaySeq 3 ≤ delaySeq 4 ∧ delaySeq 250 ≤ 10000 :=
  ⟨c3_backoff_delay_floor.1 baseState rfl,
   c3_backoff_delay_floor.2.2.2.2.1 3,
   c3_backoff_delay_floor.2.2.2.2.2 250⟩

/-- C4 counterexample — with the budget starting at 20, after 20
`reconnect()` invocations (an initial one plus 19 failed cycles, as
`reconnectCalls` records) the terminal notification has fired zero
times, not once: the `_retries == 0` check precedes the decrement, so
the notification fires only on the 21st invocation. -/
theorem c4_twenty_reconnects_no_notification :
    (reconnectIterF 19 baseState).reconnectCalls = 20 ∧
    (reconnectIterF 19 baseState).editorErrors.length = 0 := by
  decide

/-- C4 (amended) — every non-no-op `reconnect()` decrements the budget
by exactly one regardless of outcome and appends the terminal
notification exactly when the budget is 0 at entry; starting from 20,
after 20 invocations no notification has fired, the 21st invocation
(at whose entry the budget is 0) fires it for the only time, the
budget then is -1 (negative), and with no timer armed the failure
cycle stops there. -/
theorem c4_retry_budget_decrement_and_terminal_notification :
    (∀ s : FlooState, s.reconnectTimeout = none →
        (reconnect s).retries = s.retries - 1) ∧
    (∀ s : FlooState, s.reconnectTimeout = none →
        (reconnect s).editorErrors
          = s.editorErrors ++ (if s.retries = 0 then [terminalMsg] else [])) ∧
    (reconnectIterF 19 baseState).reconnectCalls = 20 ∧
    (reconnectIterF 19 baseState).editorErrors = [] ∧
    (reconnectIterF 20 baseState).reconnectCalls = 21 ∧
    (reconnectIterF 20 baseState).editorErrors = [terminalMsg] ∧
    (reconnectIterF 20 baseState).retries = -1 ∧
    reconnectIterF 21 baseState = reconnectIterF 20 baseState := by
  exact ⟨reconnect_nonpending_retries, reconnect_nonpending_errors,
    by decide, by decide, by decide, by decide, by decide, by decide⟩

/-- C4 witness: the amended claim applied to a concrete state. -/
theorem c4_retry_budget_decrement_and_terminal_notification_witness :
    (reconnect baseState).retries = baseState.retries - 1 ∧
    (reconnect baseState).editorErrors
      = baseState.editorErrors ++ (if baseState.retries = 0 then [terminalMsg] else []) :=
  ⟨c4_retry_budget_decrement_and_terminal_notification.1 baseState rfl,
   c4_retry_budget_decrement_and_terminal_notification.2.1 baseState rfl⟩

/-- C10 — every `cleanup()` resets the process-wide
`G.JOINED_WORKSPACE` flag to false, in addition to the listed
postconditions (clearing the inbound buffer, dropping the socket
handle, marking not-established), and so does every `stop()` and every
non-no-op `reconnect()`. -/
theorem c10_cleanup_resets_joined_workspace (s : FlooState) :
    cleanup s = { s with joinedWorkspace := false, buf := [],
                         sock := none, connected := false } ∧
    (stop s).joinedWorkspace = false ∧
    (s.reconnectTimeout = none → (reconnect s).joinedWorkspace = false) := by
  refine ⟨rfl, rfl, fun hp => reconnect_nonpending_joined s hp⟩

/-- C10 witness: the claim applied to a state with the flag set. -/
theorem splitOnce_of_not_mem {l : List Nat} (h : (10 : Nat) ∉ l) :
    splitOnce l = none := by
  induction l with
  | nil => rfl
  | cons c rest ih =>
    simp only [List.mem_cons, not_or] at h
    have hc : ¬ c = 10 := fun e => h.1 e.symm
    simp only [splitOnce, if_neg hc, ih h.2]

theorem splitOnce_append {b a : List Nat} (h : (10 : Nat) ∉ b) :
    splitOnce (b ++ 10 :: a) = some (b, a) := by
  induction b with
  | nil => simp [splitOnce]
  | cons c rest ih =>
    simp only [List.mem_cons, not_or] at h
    have hc : ¬ c = 10 := fun e => h.1 e.symm
    simp only [List.cons_append, splitOnce, if_neg hc, List.append_eq]
    rw [ih h.2]

theorem handleLines_of_none (parse : List Nat → Option Msg) {buf : List Nat}
    (h : splitOnce buf = none) : handleLines parse buf = ([], buf) := by
  rw [handleLines]
  split
  · rfl
  · rename_i line after heq
    rw [h] at heq
    exact absurd heq (by simp)

theorem handleLines_of_some (parse : List Nat → Option Msg)
    {buf line after : List Nat} (h : splitOnce buf = some (line, after)) :
    handleLines parse buf =
      match parse line with
      | none => handleLines parse after
      | some m => (m :: (handleLines parse after).1, (handleLines parse after).2) := by
  rw [handleLines]
  split
  · rename_i heq
    rw [h] at heq
    exact absurd heq (by simp)
  · rename_i l a heq
    rw [h] at heq
    simp only [Option.some.injEq, Prod.mk.injEq] at heq
    obtain ⟨rfl, rfl⟩ := heq
    rfl

theorem handleLines_join (parse : List Nat → Option Msg) :
    ∀ (ls : List (List Nat)) (rest : List Nat),
      (∀ l ∈ ls, (10 : Nat) ∉ l) → (10 : Nat) ∉ rest →
      handleLines parse (joinLines ls ++ rest) = (ls.filterMap parse, rest) := by
  intro ls
  induction ls with
  | nil =>
    intro rest _ hrest
    simp only [joinLines, List.map_nil, List.flatten_nil, List.nil_append,
      List.filterMap_nil]
    exact handleLines_of_none parse (splitOnce_of_not_mem hrest)
  | cons x ls ih =>
    intro rest hls hrest
    have hx : (10 : Nat) ∉ x := hls x (by simp)
    have hls2 : ∀ l ∈ ls, (10 : Nat) ∉ l := fun l hl => hls l (by simp [hl])
    have hbuf : joinLines (x :: ls) ++ rest = x ++ 10 :: (joinLines ls ++ rest) := by
      simp [joinLines, List.append_assoc]
    rw [hbuf, handleLines_of_some parse (splitOnce_append hx)]
    cases hpx : parse x with
    | none => simp [ih rest hls2 hrest, List.filterMap_cons, hpx]
    | some m => simp [ih rest hls2 hrest, List.filterMap_cons, hpx]

/-- C5 — a buffer made of complete newline-terminated lines followed by
an unterminated remainder dispatches exactly one `data` event per line
that parses, in arrival order; a line that raises while decoding or
parsing is dropped without stalling the later lines; the remainder
stays buffered for the next read. -/
theorem c5_handle_dispatch_per_line (parse : List Nat → Option Msg)
    (s : FlooState) (ls : List (List Nat)) (rest data : List Nat)
    (hbuf : s.buf ++ data = joinLines ls ++ rest)
    (hls : ∀ l ∈ ls, (10 : Nat) ∉ l) (hrest : (10 : Nat) ∉ rest) :
    handleData parse data s
      = { s with buf := rest, dataEvents := s.dataEvents ++ ls.filterMap parse } := by
  unfold handleData
  rw [hbuf, handleLines_join parse ls rest hls hrest]

/-- C5 witness: two parseable lines, one failing line and a trailing
fragment dispatch exactly the two parseable messages and keep the
fragment buffered. -/
theorem c5_handle_dispatch_per_line_witness :
    handleData parseA [65, 10, 66, 10, 65, 10, 67] baseState
      = { baseState with buf := [67], dataEvents := [⟨"A"⟩, ⟨"A"⟩] } := by
  rw [c5_handle_dispatch_per_line parseA baseState [[65], [66], [65]] [67]
    [65, 10, 66, 10, 65, 10, 67] (by decide) (by decide) (by decide)]
  decide

theorem put_nonempty (dumps : Item → String) (s : FlooState) (item : Item)
    (h : item ≠ []) :
    put dumps s item
      = ({ s with q := s.q ++ [dumps item ++ "\n"] }, some (s.q.length + 1)) := by
  unfold put
  rw [if_neg h]
  simp [List.length_append]

theorem putAll_q (dumps : Item → String) (items : List Item) :
    ∀ s : FlooState, (∀ i ∈ items, i ≠ []) →
      putAll dumps items s
        = { s with q := s.q ++ items.map (fun i => dumps i ++ "\n") } := by
  induction items with
  | nil =>
    intro s _
    simp only [putAll, List.foldl_nil, List.map_nil, List.append_nil]
  | cons i is ih =>
    intro s h
    have hi : i ≠ [] := h i (by simp)
    have his : ∀ j ∈ is, j ≠ [] := fun j hj => h j (by simp [hj])
    unfold putAll
    rw [List.foldl_cons]
    have hput : (put dumps s i).1 = { s with q := s.q ++ [dumps i ++ "\n"] } := by
      rw [put_nonempty dumps s i hi]
    rw [hput]
    have := ih { s with q := s.q ++ [dumps i ++ "\n"] } his
    unfold putAll at this
    rw [this]
    simp [List.append_assoc]

/-- C6 — outbound frames are FIFO: `put` serializes the item, appends
the separator and pushes at the tail (returning the new length), so a
sequence of `put`s appends their frames in order, and a `write` on an
established non-handshaking connection transmits the previously queued
frames followed by those frames, in exactly that order, leaving the
queue empty — nothing is reordered or dropped. -/
theorem c6_outbound_fifo :
    (∀ (dumps : Item → String) (s : FlooState) (item : Item), item ≠ [] →
        put dumps s item
          = ({ s with q := s.q ++ [dumps item ++ "\n"] }, some (s.q.length + 1))) ∧
    (∀ (dumps : Item → String) (items : List Item) (s : FlooState),
        (∀ i ∈ items, i ≠ []) →
        putAll dumps items s
          = { s with q := s.q ++ items.map (fun i => dumps i ++ "\n") }) ∧
    (∀ (dumps : Item → String) (items : List Item) (s : FlooState)
        (hs : HsOutcome) (fd : Nat),
        s.needsHandshake = false → s.sock = some fd → (∀ i ∈ items, i ≠ []) →
        (write hs (putAll dumps items s)).sent
            = s.sent ++ s.q ++ items.map (fun i => dumps i ++ "\n") ∧
        (write hs (putAll dumps items s)).q = []) := by
  refine ⟨put_nonempty, fun dumps items s h => putAll_q dumps items s h, ?_⟩
  intro dumps items s hs fd hnh hsock hne
  rw [putAll_q dumps items s hne]
  unfold write
  simp [hnh, hsock, List.append_assoc]

/-- C6 witness: two concrete enqueued items are transmitted in order by
a single `write` on an established connection. -/
theorem c6_outbound_fifo_witness :
    (write .ok (putAll (fun _ => "x") [[("name", "patch")], [("name", "ping")]] connState)).sent
      = ["x\n", "x\n"] ∧
    (write .ok (putAll (fun _ => "x") [[("name", "patch")], [("name", "ping")]] connState)).q
      = [] := by
  have h := c6_outbound_fifo.2.2 (fun _ => "x")
    [[("name", "patch")], [("name", "ping")]] connState .ok 0
    (by decide) (by decide) (by decide)
  refine ⟨?_, h.2⟩
  rw [h.1]
  decide

theorem reconnect_emptyReads (s : FlooState) :
    (reconnect s).emptyReads = s.emptyReads := by
  unfold reconnect
  cases hp : s.reconnectTimeout
  · dsimp only
    split
    · rfl
    · split <;> rfl
  · rfl

theorem reconnect_calls (s : FlooState) :
    (reconnect s).reconnectCalls = s.reconnectCalls + 1 := by
  unfold reconnect
  cases hp : s.reconnectTimeout
  · dsimp only
    split
    · rfl
    · split <;> rfl
  · rfl

theorem readOp_empty_step (parse : List Nat → Option Msg) (s : FlooState)
    (fd : Nat) (hsock : s.sock = some fd) (hlis : s.listener = false)
    (hcnt : ¬ s.emptyReads + 1 > 2000 / s.tickTime) :
    readOp parse [] s = { s with emptyReads := s.emptyReads + 1 } := by
  unfold readOp readBody
  simp [hlis, hsock, hcnt]

theorem readOp_empty_trigger (parse : List Nat → Option Msg) (s : FlooState)
    (fd : Nat) (hsock : s.sock = some fd) (hlis : s.listener = false)
    (hcnt : s.emptyReads + 1 > 2000 / s.tickTime) :
    readOp parse [] s = reconnect { s with emptyReads := s.emptyReads + 1 } := by
  unfold readOp readBody
  simp [hlis, hsock, hcnt]

theorem readIterN_le (n : Nat) (hn : n ≤ 2000) :
    readIterN n = { connState with emptyReads := n } := by
  induction n with
  | zero => rfl
  | succ m ih =>
    have hm : m ≤ 2000 := by omega
    have hstep : readIterN (m + 1) = readOp parseNone [] (readIterN m) := rfl
    rw [hstep, ih hm]
    rw [readOp_empty_step parseNone _ 0 rfl rfl
      (by show ¬ m + 1 > 2000 / 1; omega)]

/-- C8 — every zero-byte `read()` callback on an open socket increments
the consecutive-empty-read counter, and a reconnect is invoked exactly
when the incremented counter exceeds `2000 / G.TICK_TIME`; with tick
time 1, starting from a freshly established connection, the first 2000
empty reads invoke no reconnect and the 2001st invokes it (once). -/
theorem c8_empty_read_threshold :
    (∀ (parse : List Nat → Option Msg) (s : FlooState) (fd : Nat),
        s.sock = some fd → s.listener = false →
        (readOp parse [] s).emptyReads = s.emptyReads + 1) ∧
    (∀ (parse : List Nat → Option Msg) (s : FlooState) (fd : Nat),
        s.sock = some fd → s.listener = false →
        (readOp parse [] s).reconnectCalls
          = s.reconnectCalls
            + (if s.emptyReads + 1 > 2000 / s.tickTime then 1 else 0)) ∧
    (∀ n, n ≤ 2000 → readIterN n = { connState with emptyReads := n }) ∧
    (readIterN 2000).reconnectCalls = 0 ∧
    (readIterN 2001).reconnectCalls = 1 ∧
    (readIterN 2001).emptyReads = 2001 := by
  have hsucc : ∀ n : Nat, readIterN (n + 1) = readOp parseNone [] (readIterN n) :=
    fun n => rfl
  have hstep : readIterN 2001 = readOp parseNone [] (readIterN 2000) := hsucc 2000
  refine ⟨?_, ?_, readIterN_le, ?_, ?_, ?_⟩
  · intro parse s fd hsock hlis
    by_cases hcnt : s.emptyReads + 1 > 2000 / s.tickTime
    · rw [readOp_empty_trigger parse s fd hsock hlis hcnt, reconnect_emptyReads]
    · rw [readOp_empty_step parse s fd hsock hlis hcnt]
  · intro parse s fd hsock hlis
    by_cases hcnt : s.emptyReads + 1 > 2000 / s.tickTime
    · rw [readOp_empty_trigger parse s fd hsock hlis hcnt, reconnect_calls,
        if_pos hcnt]
    · rw [readOp_empty_step parse s fd hsock hlis hcnt, if_neg hcnt]
      rfl
  · rw [readIterN_le 2000 (by omega)]
    rfl
  · rw [hstep, readIterN_le 2000 (by omega)]
    decide
  · rw [hstep, readIterN_le 2000 (by omega)]
    decide

/-- C8 witness: the claim applied to the established connection and to
a concrete run of 5 empty reads. -/
theorem c8_empty_read_threshold_witness :
    (readOp parseNone [] connState).emptyReads = connState.emptyReads + 1 ∧
    (readOp parseNone [] connState).reconnectCalls
      = connState.reconnectCalls
        + (if connState.emptyReads + 1 > 2000 / connState.tickTime then 1 else 0) ∧
    readIterN 5 = { connState with emptyReads := 5 } :=
  ⟨c8_empty_read_threshold.1 parseNone connState 0 rfl rfl,
   c8_empty_read_threshold.2.1 parseNone connState 0 rfl rfl,
   c8_empty_read_threshold.2.2.1 5 (by omega)⟩

/-- C9 (amended) — `fd_set` contributes nothing when neither
established nor a listener; when it contributes it always appends the
descriptor to the error set, appends it to the write set exactly when a
TLS handshake is pending or the outbound queue is non-empty, and
appends it to the read set when listening or when NO handshake is
pending (the handshake branch returns before the unconditional read
append). -/
theorem c9_fd_set_characterization (s : FlooState) (fd : Nat)
    (r w e : List Nat) (hsock : s.sock = some fd) :
    (s.connected = false → s.listener = false → fd_set s r w e = (r, w, e)) ∧
    (s.connected = true ∨ s.listener = true →
        fd_set s r w e
          = (r ++ (if s.listener = true then [fd] else [])
               ++ (if s.needsHandshake = true then [] else [fd]),
             w ++ (if s.needsHandshake = true ∨ 0 < s.q.length then [fd] else []),
             e ++ [fd])) := by
  constructor
  · intro hc hl
    unfold fd_set
    rw [hc, hl]
    rfl
  · intro hcl
    unfold fd_set
    have hcond : (!s.connected && !s.listener) = false := by
      rcases hcl with h | h <;> simp [h]
    rw [hcond]
    cases hl : s.listener <;> cases hh : s.needsHandshake <;>
      by_cases hq : 0 < s.q.length <;>
      simp [hsock, hq, List.append_assoc]

/-- C9 counterexample — an established secure connection with the
handshake still pending contributes (its descriptor is in the error
set) but its descriptor is NOT in the read set, refuting the claim's
"always (regardless of handshake state)". -/
theorem c9_read_set_handshake_counterexample :
    (fd_set secureConnState [] [] []).2.2 = [0] ∧
    (fd_set secureConnState [] [] []).1 = [] := by
  decide

/-- C9 witness: the amended characterization applied to a plaintext
established connection and to a handshaking secure one. -/
theorem c9_fd_set_characterization_witness :
    fd_set connState [] [] [] = ([0], [], [0]) ∧
    fd_set secureConnState [1] [2] [3] = ([1], [2, 0], [3, 0]) := by
  constructor
  · rw [(c9_fd_set_characterization connState 0 [] [] [] rfl).2 (Or.inl rfl)]
    decide
  · rw [(c9_fd_set_characterization secureConnState 0 [1] [2] [3] rfl).2 (Or.inl rfl)]
    decide

theorem cancel_liveTimers_of_inv (s : FlooState) (h : reconnectTimerInv s) :
    (cancelReconnectTimeout s).liveTimers = [] := by
  unfold reconnectTimerInv at h
  unfold cancelReconnectTimeout
  cases hp : s.reconnectTimeout
  · rw [hp] at h
    simpa using h
  · rename_i a
    rw [hp] at h
    dsimp only
    rw [h]
    simp

theorem inv_cancel (s : FlooState) (h : reconnectTimerInv s) :
    reconnectTimerInv (cancelReconnectTimeout s) := by
  show (cancelReconnectTimeout s).liveTimers = _
  rw [cancel_liveTimers_of_inv s h]
  rfl

theorem inv_reconnect (s : FlooState) (h : reconnectTimerInv s) :
    reconnectTimerInv (reconnect s) := by
  cases hp : s.reconnectTimeout with
  | some a =>
    rw [reconnect_pending s a hp]
    exact h
  | none =>
    unfold reconnect
    rw [hp]
    unfold reconnectTimerInv at h
    rw [hp] at h
    dsimp only
    unfold reconnectTimerInv
    split
    · simp [cleanup, h]
    · split
      · simp [cleanup, h, hp]
      · simp [cleanup, h, hp]

theorem connectPrep_timers (s : FlooState) :
    (connectPrep s).liveTimers = (cancelReconnectTimeout s).liveTimers ∧
    (connectPrep s).reconnectTimeout = none := by
  constructor
  · unfold connectPrep
    dsimp only
    split
    · split <;> rfl
    · rfl
  · unfold connectPrep
    dsimp only
    split
    · split <;> rfl
    · rfl

theorem inv_connectAttempt (o : ConnOutcome) (n : Nat) (s : FlooState)
    (h : reconnectTimerInv s) : reconnectTimerInv (connectAttempt o n s) := by
  unfold connectAttempt
  split
  · exact inv_reconnect s h
  · cases hs2 : s.sock
    · exact h
    · cases o with
      | ok => exact h
      | isconn => exact h
      | inProgress => exact h
      | err => exact inv_reconnect s h

theorem inv_connect_of_nil (o : ConnOutcome) (s : FlooState)
    (hnil : (cancelReconnectTimeout s).liveTimers = []) :
    reconnectTimerInv (connect o s) := by
  have hprep : reconnectTimerInv (connectPrep s) := by
    unfold reconnectTimerInv
    rw [(connectPrep_timers s).2, (connectPrep_timers s).1, hnil]
  exact inv_connectAttempt o 0 _ hprep

theorem inv_connect (o : ConnOutcome) (s : FlooState)
    (h : reconnectTimerInv s) : reconnectTimerInv (connect o s) :=
  inv_connect_of_nil o s (cancel_liveTimers_of_inv s h)

theorem cancel_liveTimers_nil (s : FlooState) (h0 : s.liveTimers = []) :
    (cancelReconnectTimeout s).liveTimers = [] := by
  unfold cancelReconnectTimeout
  cases hp : s.reconnectTimeout
  · dsimp only
    exact h0
  · dsimp only
    rw [h0]
    simp

theorem inv_fire (o : ConnOutcome) (s : FlooState)
    (h : reconnectTimerInv s) : reconnectTimerInv (fireReconnectTimer o s) := by
  unfold fireReconnectTimer
  cases hp : s.reconnectTimeout
  · exact h
  · rename_i a
    apply inv_connect_of_nil
    apply cancel_liveTimers_nil
    show s.liveTimers.erase a = []
    unfold reconnectTimerInv at h
    rw [hp] at h
    rw [h]
    simp

theorem inv_cleanup (s : FlooState) (h : reconnectTimerInv s) :
    reconnectTimerInv (cleanup s) := h

theorem inv_stop (s : FlooState) (h : reconnectTimerInv s) :
    reconnectTimerInv (stop s) :=
  inv_cleanup _ (inv_cancel { s with retriesAttr := some (-1) } h)

theorem inv_handleData (parse : List Nat → Option Msg) (data : List Nat)
    (s : FlooState) (h : reconnectTimerInv s) :
    reconnectTimerInv (handleData parse data s) := h

theorem inv_readBody (parse : List Nat → Option Msg) (chunks : List (List Nat))
    (s : FlooState) (h : reconnectTimerInv s) :
    reconnectTimerInv (readBody parse chunks s) := by
  unfold readBody
  cases hs2 : s.sock
  · exact inv_reconnect s h
  · dsimp only
    split
    · split
      · exact inv_reconnect _ h
      · exact h
    · exact inv_handleData parse _ _ h

theorem inv_readOp (parse : List Nat → Option Msg) (chunks : List (List Nat))
    (s : FlooState) (h : reconnectTimerInv s) :
    reconnectTimerInv (readOp parse chunks s) := by
  unfold readOp
  split
  · cases hs2 : s.sock
    · exact h
    · exact inv_readBody parse chunks s h
  · exact inv_readBody parse chunks s h

theorem inv_write (hs : HsOutcome) (s : FlooState) (h : reconnectTimerInv s) :
    reconnectTimerInv (write hs s) := by
  unfold write
  split
  · cases hs with
    | ok => exact h
    | sslError => exact h
    | otherError => exact inv_reconnect s h
  · cases hs2 : s.sock
    · cases hq : s.q
      · exact h
      · exact h
    · exact h

theorem inv_put (dumps : Item → String) (s : FlooState) (item : Item)
    (h : reconnectTimerInv s) : reconnectTimerInv (put dumps s item).1 := by
  unfold put
  split
  · exact h
  · exact h

theorem inv_length (s : FlooState) (h : reconnectTimerInv s) :
    s.liveTimers.length ≤ 1 := by
  unfold reconnectTimerInv at h
  rw [h]
  cases s.reconnectTimeout <;> simp

/-- C7 — `reconnect()` invoked while a reconnect timer is pending is a
complete no-op (only the ghost invocation counter changes; in
particular no second timer is armed), and the invariant "the armed
reconnect timers are exactly the one in `_reconnect_timeout`" — which
bounds the outstanding reconnect timers by one — holds initially and
is preserved by every operation. -/
theorem c7_reconnect_noop_when_pending :
    (∀ (s : FlooState) (h : Nat), s.reconnectTimeout = some h →
        reconnect s = { s with reconnectCalls := s.reconnectCalls + 1 }) ∧
    (∀ s : FlooState, reconnectTimerInv s → s.liveTimers.length ≤ 1) ∧
    (∀ s : FlooState, reconnectTimerInv s →
        reconnectTimerInv (reconnect s) ∧
        reconnectTimerInv (cancelReconnectTimeout s) ∧
        reconnectTimerInv (cleanup s) ∧
        reconnectTimerInv (stop s) ∧
        (∀ o, reconnectTimerInv (connect o s)) ∧
        (∀ o n, reconnectTimerInv (connectAttempt o n s)) ∧
        (∀ o, reconnectTimerInv (fireReconnectTimer o s)) ∧
        (∀ hs, reconnectTimerInv (write hs s)) ∧
        (∀ parse chunks, reconnectTimerInv (readOp parse chunks s)) ∧
        (∀ parse data, reconnectTimerInv (handleData parse data s)) ∧
        (∀ dumps item, reconnectTimerInv (put dumps s item).1)) ∧
    reconnectTimerInv baseState := by
  refine ⟨reconnect_pending, inv_length, ?_, rfl⟩
  intro s h
  exact ⟨inv_reconnect s h, inv_cancel s h, inv_cleanup s h, inv_stop s h,
    fun o => inv_connect o s h, fun o n => inv_connectAttempt o n s h,
    fun o => inv_fire o s h, fun hs => inv_write hs s h,
    fun parse chunks => inv_readOp parse chunks s h,
    fun parse data => inv_handleData parse data s h,
    fun dumps item => inv_put dumps s item h⟩

/-- C7 witness: the claim applied to a state with a pending timer
(after one `reconnect`) and concrete operations on it. -/
theorem c7_reconnect_noop_when_pending_witness :
    (reconnect (reconnect baseState)).liveTimers = (reconnect baseState).liveTimers ∧
    (reconnect baseState).liveTimers.length ≤ 1 ∧
    reconnectTimerInv (fireReconnectTimer .err (reconnect baseState)) := by
  have hinv := (c7_reconnect_noop_when_pending.2.2.1 baseState (by decide)).1
  exact ⟨by rw [c7_reconnect_noop_when_pending.1 (reconnect baseState) 0 (by decide)],
    c7_reconnect_noop_when_pending.2.1 (reconnect baseState) hinv,
    ((c7_reconnect_noop_when_pending.2.2.1 (reconnect baseState) hinv).2.2.2.2.2.2.1) .err⟩


theorem c10_cleanup_resets_joined_workspace_witness :
    (cleanup (initState "h" 1 false 1 true)).joinedWorkspace = false ∧
    (stop (initState "h" 1 false 1 true)).joinedWorkspace = false ∧
    (reconnect (initState "h" 1 false 1 true)).joinedWorkspace = false :=
  ⟨by rw [(c10_cleanup_resets_joined_workspace (initState "h" 1 false 1 true)).1],
   (c10_cleanup_resets_joined_workspace (initState "h" 1 false 1 true)).2.1,
   (c10_cleanup_resets_joined_workspace (initState "h" 1 false 1 true)).2.2 rfl⟩

end FlooProto
